import Mathlib

/-!
Shallow embedding of `src/v2/services/cloud-storage/upload.ts`
(class `CloudStorageUploadService`) from the flat-server repository.

Modelling choices, kept as close to the TypeScript source as possible:

* Machine numbers: file sizes and usage totals are natural numbers
  (the service only ever adds non-negative sizes).
* Redis: the ephemeral store is modelled per user, as an association list
  from session key (the `fileUUID` part of
  `RedisKey.cloudStorageFileInfo(userUUID, fileUUID)`) to the stored hash.
  TTL expiry is modelled as absence of the key.  `RedisService` itself is
  not part of the repository sources; per the spec, its `scan` with a
  count argument returns the matching keys capped at that count.
* The relational store is modelled as the per-user slice the service
  touches: the `total_usage` column (a string column, absent when the user
  has no usage row yet — the DAO then yields `undefined`, which
  `Number(total_usage) || 0` turns into 0), the list of file records and
  the list of user-file links.
* External collaborators (`CloudStorageDirectoryService.assertExists`,
  `oss.assertExists`, `oss.policyTemplate`, `oss.domain`,
  `CloudStorageFileService.getFileResourceTypeByFileName`, `v4()`) are an
  environment of pure functions supplied to each call.
* JavaScript `Number(s)` on strings written by this service is modelled by
  a decimal parser returning `Option Nat` (`none` plays the role of `NaN`);
  `String(n)` is modelled by decimal rendering.
* `format("yyyy-MM/dd")(Date.now())` is modelled by the proleptic Gregorian
  civil-from-days conversion of the UTC timestamp (milliseconds).
-/

deriving instance DecidableEq for Except

namespace FlatServer

/-! ### JavaScript string/number primitives -/

/-- Decimal digits of `n`, most significant first, with structural fuel.
Models the digit sequence of JavaScript `String(n)` for a natural `n`. -/
def natToDigitsAux : Nat → Nat → List Char
  | 0, _ => []
  | _ + 1, 0 => []
  | fuel + 1, n + 1 =>
    natToDigitsAux fuel ((n + 1) / 10) ++ [Nat.digitChar ((n + 1) % 10)]

/-- JavaScript `String(n)` for a natural number `n` (plain decimal form). -/
def natToDecimal (n : Nat) : String :=
  if n = 0 then "0" else ⟨natToDigitsAux n n⟩

/-- Numeric value of a decimal digit character. -/
def digitVal (c : Char) : Nat := c.toNat - 48

/-- Accumulating decimal parse; `none` when a non-digit occurs. -/
def parseDigitsAux : List Char → Nat → Option Nat
  | [], acc => some acc
  | c :: cs, acc =>
    if c.isDigit then parseDigitsAux cs (acc * 10 + digitVal c) else none

/-- JavaScript `Number(s)` on the strings this service writes: a
non-empty all-digit string parses to its value, everything else is `NaN`
(modelled as `none`).  The empty string is mapped to `none` because every
use site first replaces empty/null by `undefined` (`s || undefined`) or
discards non-numbers via `|| 0`. -/
def jsNumber? (s : String) : Option Nat :=
  match s.data with
  | [] => none
  | c :: cs => parseDigitsAux (c :: cs) 0

/-- JavaScript `Number(x) || 0` for `x : string | null | undefined`. -/
def jsNumberD0 : Option String → Nat
  | none => 0
  | some s => (jsNumber? s).getD 0

/-- JavaScript `Number(x || undefined)` with `NaN` as `none`,
for `x : string | null`. -/
def jsNumberStrict? : Option String → Option Nat
  | none => none
  | some s => jsNumber? s

/-! ### Dates: `format("yyyy-MM/dd")(Date.now())` -/

/-- Civil date (year, month, day) from a count of days since 1970-01-01,
proleptic Gregorian calendar (standard civil-from-days algorithm,
restricted to non-negative day counts). -/
def civilFromDays (z0 : Nat) : Nat × Nat × Nat :=
  let z := z0 + 719468
  let era := z / 146097
  let doe := z % 146097
  let yoe := (doe - doe / 1460 + doe / 36524 - doe / 146096) / 365
  let y := yoe + era * 400
  let doy := doe - (365 * yoe + yoe / 4 - yoe / 100)
  let mp := (5 * doy + 2) / 153
  let d := doy - (153 * mp + 2) / 5 + 1
  let m := if mp < 10 then mp + 3 else mp - 9
  (if m ≤ 2 then y + 1 else y, m, d)

/-- Left-pad to two digits. -/
def pad2 (n : Nat) : String :=
  if n < 10 then "0" ++ natToDecimal n else natToDecimal n

/-- Left-pad to four digits. -/
def pad4 (n : Nat) : String :=
  if n < 10 then "000" ++ natToDecimal n
  else if n < 100 then "00" ++ natToDecimal n
  else if n < 1000 then "0" ++ natToDecimal n
  else natToDecimal n

/-- UTC calendar date of a Unix timestamp in milliseconds. -/
def utcDate (ms : Nat) : Nat × Nat × Nat := civilFromDays (ms / 86400000)

/-- `format("yyyy-MM/dd")(ms)`: the date component of the object path. -/
def datePath (ms : Nat) : String :=
  let ymd := utcDate ms
  pad4 ymd.1 ++ "-" ++ pad2 ymd.2.1 ++ "/" ++ pad2 ymd.2.2

/-! ### Node `path.extname` (POSIX) -/

/-- The base name of `s`: the characters after the last `/`. -/
def basenameOf (s : String) : List Char :=
  (s.data.reverse.takeWhile (fun c => c ≠ '/')).reverse

/-- Node `path.extname`: the part of the base name from the last dot on;
empty when there is no dot, when the only dot is the leading character of
the base name, or when the base name is exactly `..`. -/
def extname (s : String) : String :=
  let base := basenameOf s
  let afterDot := base.reverse.takeWhile (fun c => c ≠ '.')
  if afterDot.length = base.length then ""
  else if base.length - afterDot.length - 1 = 0 then ""
  else if base = ['.', '.'] then ""
  else ⟨'.' :: afterDot.reverse⟩

/-! ### Data model -/

/-- Error codes surfaced by the service (`ErrorCode.*` in the source);
`externalError` stands for a failure propagated unchanged from a
collaborator (directory validator / object store). -/
inductive Err where
  | uploadConcurrentLimit
  | notEnoughTotalUsage
  | fileNotFound
  | externalError (tag : String)
deriving DecidableEq, Repr

/-- `FileConvertStep` from `model/cloudStorage/Constants`. -/
inductive FileConvertStep where
  | None
  | Converting
  | Done
  | Failed
deriving DecidableEq, Repr

/-- `FilePayload`: either the empty object or the whiteboard
conversion-state object `{region, convertStep}`. -/
inductive FilePayload where
  | empty
  | whiteboard (region : String) (convertStep : FileConvertStep)
deriving DecidableEq, Repr

/-- The Redis hash written by `start` (field absent = `null` on read). -/
structure SessionHash where
  fileName : Option String
  fileSize : Option String
  targetDirectoryPath : Option String
  fileResourceType : Option String
deriving DecidableEq, Repr

/-- A row of `cloud_storage_files`. -/
structure FileRecord where
  file_name : String
  file_size : Nat
  file_url : String
  file_uuid : String
  directory_path : String
  resource_type : String
  payload : FilePayload
deriving DecidableEq, Repr

/-- A row of `cloud_storage_user_files`. -/
structure UserFileLink where
  user_uuid : String
  file_uuid : String
deriving DecidableEq, Repr

/-- The user's slice of the ephemeral store: live upload sessions keyed by
`fileUUID` (the key pattern is namespaced per user, so the scan pattern
`cloudStorageFileInfo(userUUID, "*")` matches exactly these keys). -/
structure RedisState where
  sessions : List (String × SessionHash)
deriving DecidableEq, Repr

/-- The user's slice of the relational store. -/
structure DBState where
  total_usage : Option String
  files : List FileRecord
  userFiles : List UserFileLink
deriving DecidableEq, Repr

/-- Combined state touched by the service for one user. -/
structure State where
  redis : RedisState
  db : DBState
deriving DecidableEq, Repr

/-- Configuration constants (`CloudStorage.*`, `Whiteboard.convertRegion`,
`whiteboardResourceType`). -/
structure Config where
  concurrent : Nat
  totalSize : Nat
  prefixPath : String
  whiteboardResourceType : List String
  convertRegion : String

/-- External collaborators of one call, as pure functions. -/
structure Env where
  dirAssert : String → Except Err Unit
  ossAssert : String → Except Err Unit
  policyTemplate : String → String → Nat → String × String
  ossDomain : String
  classify : String → String
  newUUID : String

/-! ### Redis operations -/

/-- Hash stored under a session key, if the key is live. -/
def lookupSession (r : RedisState) (key : String) : Option SessionHash :=
  (r.sessions.find? (fun p => p.1 == key)).map Prod.snd

/-- `RedisService.scan(cloudStorageFileInfo(userUUID, "*"), concurrent + 1,
true)`: the user's live session keys, capped at `concurrent + 1` keys. -/
def scanKeys (cfg : Config) (r : RedisState) : List String :=
  (r.sessions.map Prod.fst).take (cfg.concurrent + 1)

/-- Remove a session key (`RedisService.del`). -/
def eraseSession (r : RedisState) (key : String) : RedisState :=
  ⟨r.sessions.filter (fun p => p.1 != key)⟩

/-- `RedisService.hmset` of a fresh session hash under `key`. -/
def hmsetSession (r : RedisState) (key : String) (h : SessionHash) : RedisState :=
  ⟨(eraseSession r key).sessions ++ [(key, h)]⟩

/-- Session TTL passed to `hmset` in `start` (seconds). -/
def sessionTTL : Nat := 60 * 20

/-! ### The service operations -/

/-- `assertConcurrentLimit`: reject with `UploadConcurrentLimit` when the
scan finds at least `concurrent` live sessions. -/
def assertConcurrentLimit (cfg : Config) (r : RedisState) : Except Err Unit :=
  if (scanKeys cfg r).length ≥ cfg.concurrent then
    .error .uploadConcurrentLimit
  else
    .ok ()

/-- `getTotalUsageByUpdated(currentFileSize)`: read the durable usage
(`Number(total_usage) || 0`), add the candidate size, reject with
`NotEnoughTotalUsage` when the projected total exceeds
`CloudStorage.totalSize`, otherwise return the projected total. -/
def getTotalUsageByUpdated (cfg : Config) (db : DBState) (currentFileSize : Nat) :
    Except Err Nat :=
  let totalUsage := jsNumberD0 db.total_usage + currentFileSize
  if totalUsage > cfg.totalSize then .error .notEnoughTotalUsage
  else .ok totalUsage

/-- Declared size of one live session: `Number(hmget(key, "fileSize")) || 0`
(an absent key or a non-numeric value contributes 0). -/
def sessionSize (r : RedisState) (key : String) : Nat :=
  match lookupSession r key with
  | none => 0
  | some h => jsNumberD0 h.fileSize

/-- `assertConcurrentFileSize(totalUsage)`: add the declared size of each
scanned live session to `totalUsage` and reject with `NotEnoughTotalUsage`
when the sum exceeds `CloudStorage.totalSize`.  Pure: it reads only. -/
def assertConcurrentFileSize (cfg : Config) (r : RedisState) (totalUsage : Nat) :
    Except Err Unit :=
  let uploadingFileTotalSize :=
    (scanKeys cfg r).foldl (fun acc k => acc + sessionSize r k) totalUsage
  if uploadingFileTotalSize > cfg.totalSize then .error .notEnoughTotalUsage
  else .ok ()

/-- `generateOSSFilePath(fileName, fileUUID)` at wall-clock `nowMs`. -/
def generateOSSFilePath (cfg : Config) (nowMs : Nat) (fileName fileUUID : String) :
    String :=
  cfg.prefixPath ++ "/" ++ datePath nowMs ++ "/" ++ fileUUID ++ "/" ++ fileUUID
    ++ extname fileName

/-- `generateFilePayload(fileResourceType)`. -/
def generateFilePayload (cfg : Config) (fileResourceType : String) : FilePayload :=
  if fileResourceType ∈ cfg.whiteboardResourceType then
    .whiteboard cfg.convertRegion .None
  else
    .empty

/-- Return value of `getFileInfoByRedis`. -/
structure FileInfo where
  fileName : String
  fileSize : Nat
  targetDirectoryPath : String
  fileResourceType : String
deriving DecidableEq, Repr

/-- `getFileInfoByRedis(fileUUID)`: read the four hash fields (absent key
gives four nulls), compute `fileSize = Number(fileInfo[1] || undefined)`,
and reject with `FileNotFound` when the name, directory path or resource
type is null/empty or the size is `NaN`. -/
def getFileInfoByRedis (r : RedisState) (fileUUID : String) : Except Err FileInfo :=
  let h := (lookupSession r fileUUID).getD ⟨none, none, none, none⟩
  let fileSizeN := jsNumberStrict? h.fileSize
  if h.fileName.getD "" = "" ∨ fileSizeN = none ∨
      h.targetDirectoryPath.getD "" = "" ∨ h.fileResourceType.getD "" = "" then
    .error .fileNotFound
  else
    .ok ⟨h.fileName.getD "", fileSizeN.getD 0, h.targetDirectoryPath.getD "",
         h.fileResourceType.getD ""⟩

/-- Input of `start`. -/
structure StartConfig where
  fileName : String
  fileSize : Nat
  targetDirectoryPath : String
deriving DecidableEq, Repr

/-- Return value of `start`. -/
structure StartReturn where
  fileUUID : String
  ossFilePath : String
  ossDomain : String
  policy : String
  signature : String
deriving DecidableEq, Repr

/-- `start(config)`: concurrency check, capacity check
(`getTotalUsageByUpdated` then `assertConcurrentFileSize`), directory
check, then write the session hash and return the signed upload slot.
The pair is the result together with the post state. -/
def start (env : Env) (cfg : Config) (nowMs : Nat) (st : State) (c : StartConfig) :
    Except Err StartReturn × State :=
  match assertConcurrentLimit cfg st.redis with
  | .error e => (.error e, st)
  | .ok _ =>
    match getTotalUsageByUpdated cfg st.db c.fileSize with
    | .error e => (.error e, st)
    | .ok totalUsage =>
      match assertConcurrentFileSize cfg st.redis totalUsage with
      | .error e => (.error e, st)
      | .ok _ =>
        match env.dirAssert c.targetDirectoryPath with
        | .error e => (.error e, st)
        | .ok _ =>
          let fileResourceType := env.classify c.fileName
          let hash : SessionHash :=
            ⟨some c.fileName, some (natToDecimal c.fileSize),
             some c.targetDirectoryPath, some fileResourceType⟩
          let ossFilePath := generateOSSFilePath cfg nowMs c.fileName env.newUUID
          let ps := env.policyTemplate c.fileName ossFilePath c.fileSize
          (.ok ⟨env.newUUID, ossFilePath, env.ossDomain, ps.1, ps.2⟩,
           { st with redis := hmsetSession st.redis env.newUUID hash })

/-- Input of `finish`. -/
structure FinishConfig where
  fileUUID : String
deriving DecidableEq, Repr

/-- `finish(config)`: load the session, re-check the directory, recompute
the object path at the current clock and check existence, re-run the
capacity check, then (in one transaction) insert the file record and the
user-file link and upsert the usage row, and delete the session key. -/
def finish (env : Env) (cfg : Config) (nowMs : Nat) (userUUID : String)
    (st : State) (c : FinishConfig) : Except Err Unit × State :=
  match getFileInfoByRedis st.redis c.fileUUID with
  | .error e => (.error e, st)
  | .ok info =>
    match env.dirAssert info.targetDirectoryPath with
    | .error e => (.error e, st)
    | .ok _ =>
      let ossFilePath := generateOSSFilePath cfg nowMs info.fileName c.fileUUID
      match env.ossAssert ossFilePath with
      | .error e => (.error e, st)
      | .ok _ =>
        match getTotalUsageByUpdated cfg st.db info.fileSize with
        | .error e => (.error e, st)
        | .ok totalUsage =>
          let record : FileRecord :=
            { file_name := info.fileName
              file_size := info.fileSize
              file_url := env.ossDomain ++ "/" ++ ossFilePath
              file_uuid := c.fileUUID
              directory_path := info.targetDirectoryPath
              resource_type := info.fileResourceType
              payload := generateFilePayload cfg info.fileResourceType }
          let link : UserFileLink := ⟨userUUID, c.fileUUID⟩
          let db' : DBState :=
            { total_usage := some (natToDecimal totalUsage)
              files := st.db.files ++ [record]
              userFiles := st.db.userFiles ++ [link] }
          (.ok (), { redis := eraseSession st.redis c.fileUUID, db := db' })

/-! ### Spec-side definition for the in-flight size sum

The spec describes `assertConcurrentFileSize(baseTotal)` as summing
`baseTotal` plus the declared file size of every currently live session of
the user.  The following definition follows those words; the code-side
`assertConcurrentFileSize` instead folds over the scanned keys, which the
spec elsewhere describes as capped at `concurrent + 1`. -/

/-- The spec's sum: `baseTotal` plus the declared size of every currently
live session (each unreadable or non-numeric size contributing 0). -/
def specLiveSessionSum (r : RedisState) (base : Nat) : Nat :=
  r.sessions.foldl (fun acc p => acc + jsNumberD0 p.2.fileSize) base

/-! ### Concrete fixtures used by witnesses and counterexamples -/

/-- Concrete configuration: 5 concurrent uploads, 10000 bytes quota. -/
def cfgW : Config :=
  { concurrent := 5, totalSize := 10000, prefixPath := "cloud-storage",
    whiteboardResourceType := ["WhiteboardConvert", "WhiteboardProjector"],
    convertRegion := "cn-hz" }

/-- Concrete configuration for the scan-cap counterexample: at most one
concurrent upload, 100 bytes quota. -/
def cfgC8 : Config :=
  { concurrent := 1, totalSize := 100, prefixPath := "cloud-storage",
    whiteboardResourceType := ["WhiteboardConvert", "WhiteboardProjector"],
    convertRegion := "cn-hz" }

/-- Collaborators that all succeed. -/
def envW : Env :=
  { dirAssert := fun _ => .ok (), ossAssert := fun _ => .ok (),
    policyTemplate := fun _ _ _ => ("policy", "signature"),
    ossDomain := "https://oss.example.com",
    classify := fun _ => "NormalResources", newUUID := "uuid-1" }

/-- Collaborators whose directory validator fails. -/
def envDirFail : Env :=
  { envW with dirAssert := fun _ => .error (.externalError "directory-not-found") }

/-- Collaborators whose object store reports the object missing. -/
def envOssFail : Env :=
  { envW with ossAssert := fun _ => .error (.externalError "oss-object-missing") }

/-- Collaborators whose object store holds exactly the object uploaded to
the path derived by `start` at 1970-01-01T23:59:59.999Z. -/
def envMidnight : Env :=
  { envW with ossAssert := fun p =>
      if p = "cloud-storage/1970-01/01/uuid-1/uuid-1.png" then .ok ()
      else .error (.externalError "oss-object-missing") }

/-- Empty state: no live sessions, no usage row, no records. -/
def stEmpty : State := ⟨⟨[]⟩, ⟨none, [], []⟩⟩

/-- State with five live sessions (the concurrency limit of `cfgW`). -/
def stFull : State :=
  ⟨⟨[("k1", ⟨some "a", some "10", some "/", some "NormalResources"⟩),
     ("k2", ⟨some "b", some "10", some "/", some "NormalResources"⟩),
     ("k3", ⟨some "c", some "10", some "/", some "NormalResources"⟩),
     ("k4", ⟨some "d", some "10", some "/", some "NormalResources"⟩),
     ("k5", ⟨some "e", some "10", some "/", some "NormalResources"⟩)]⟩,
   ⟨none, [], []⟩⟩

/-- State with durable usage 9500 and one live session of 1000 bytes:
both `start` and `finish` of a 1000-byte file overshoot the 10000-byte
quota of `cfgW`. -/
def stOver : State :=
  ⟨⟨[("f1", ⟨some "a.png", some "1000", some "/docs", some "NormalResources"⟩)]⟩,
   ⟨some "9500", [], []⟩⟩

/-- State with one live session of 1000 bytes, ready to finish. -/
def stSession : State :=
  ⟨⟨[("f1", ⟨some "a.png", some "1000", some "/docs", some "NormalResources"⟩)]⟩,
   ⟨none, [], []⟩⟩

/-- State after the successful `finish` of the session of `stSession`. -/
def stFinished : State := (finish envW cfgW 0 "user-1" stSession ⟨"f1"⟩).2

/-- State with three live sessions of 50 bytes each: one more than the
scan cap `cfgC8.concurrent + 1 = 2`. -/
def redisC8 : RedisState :=
  ⟨[("k1", ⟨some "a", some "50", some "/", some "NormalResources"⟩),
    ("k2", ⟨some "b", some "50", some "/", some "NormalResources"⟩),
    ("k3", ⟨some "c", some "50", some "/", some "NormalResources"⟩)]⟩

/-! ### Round trip of `String(n)` and `Number(s)` -/

theorem digitChar_isDigit (d : Nat) (h : d < 10) : (Nat.digitChar d).isDigit = true := by
  interval_cases d <;> decide

theorem digitVal_digitChar (d : Nat) (h : d < 10) : digitVal (Nat.digitChar d) = d := by
  interval_cases d <;> decide

theorem natToDigitsAux_all_digits :
    ∀ fuel n, ∀ c ∈ natToDigitsAux fuel n, c.isDigit = true := by
  intro fuel
  induction fuel with
  | zero => intro n c hc; simp [natToDigitsAux] at hc
  | succ f ih =>
    intro n c hc
    match n with
    | 0 => simp [natToDigitsAux] at hc
    | m + 1 =>
      simp only [natToDigitsAux, List.mem_append, List.mem_singleton] at hc
      rcases hc with hc | hc
      · exact ih _ c hc
      · subst hc
        exact digitChar_isDigit _ (Nat.mod_lt _ (by omega))

theorem parseDigitsAux_all_digits (L : List Char) :
    ∀ acc, (∀ c ∈ L, c.isDigit = true) →
      parseDigitsAux L acc = some (L.foldl (fun a c => a * 10 + digitVal c) acc) := by
  induction L with
  | nil => intro acc _; rfl
  | cons c cs ih =>
    intro acc h
    have hc : c.isDigit = true := h c (List.mem_cons_self _ _)
    simp only [parseDigitsAux, hc, if_true, List.foldl_cons]
    exact ih _ (fun x hx => h x (List.mem_cons_of_mem _ hx))

theorem foldl_natToDigitsAux (fuel : Nat) :
    ∀ n, n ≤ fuel → ∀ acc,
      (natToDigitsAux fuel n).foldl (fun a c => a * 10 + digitVal c) acc
        = acc * 10 ^ (natToDigitsAux fuel n).length + n := by
  induction fuel with
  | zero =>
    intro n hn acc
    interval_cases n
    simp [natToDigitsAux]
  | succ f ih =>
    intro n hn acc
    match n with
    | 0 => simp [natToDigitsAux]
    | m + 1 =>
      have hdiv : (m + 1) / 10 ≤ f := by
        have := Nat.div_lt_self (Nat.succ_pos m) (by omega : 1 < 10)
        omega
      simp only [natToDigitsAux, List.foldl_append, List.foldl_cons, List.foldl_nil,
        List.length_append, List.length_cons, List.length_nil]
      rw [ih _ hdiv acc]
      have hmod : digitVal (Nat.digitChar ((m + 1) % 10)) = (m + 1) % 10 :=
        digitVal_digitChar _ (Nat.mod_lt _ (by omega))
      rw [hmod]
      have hdm : 10 * ((m + 1) / 10) + (m + 1) % 10 = m + 1 := Nat.div_add_mod _ _
      have hpow : 10 ^ ((natToDigitsAux f ((m + 1) / 10)).length + 0 + 1)
          = 10 ^ (natToDigitsAux f ((m + 1) / 10)).length * 10 := by
        rw [Nat.add_zero, pow_succ]
      rw [hpow, ← Nat.mul_assoc]
      generalize acc * 10 ^ (natToDigitsAux f ((m + 1) / 10)).length = A
      omega

theorem natToDigitsAux_ne_nil (n : Nat) (h : 0 < n) : natToDigitsAux n n ≠ [] := by
  match n, h with
  | m + 1, _ => simp [natToDigitsAux]

/-- `Number(String(n)) = n`: the decimal render of a natural number parses
back to the same value. -/
theorem jsNumber_natToDecimal (n : Nat) : jsNumber? (natToDecimal n) = some n := by
  by_cases h0 : n = 0
  · subst h0; decide
  · have hpos : 0 < n := Nat.pos_of_ne_zero h0
    have hdata : (natToDecimal n).data = natToDigitsAux n n := by
      simp [natToDecimal, h0]
    rcases hL : natToDigitsAux n n with _ | ⟨c, cs⟩
    · exact absurd hL (natToDigitsAux_ne_nil n hpos)
    · have hparse : parseDigitsAux (c :: cs) 0
          = some ((c :: cs).foldl (fun a c => a * 10 + digitVal c) 0) := by
        apply parseDigitsAux_all_digits
        intro x hx
        exact natToDigitsAux_all_digits n n x (by rw [hL]; exact hx)
      have hfold := foldl_natToDigitsAux n n le_rfl 0
      rw [hL] at hfold
      simp only [Nat.zero_mul, Nat.zero_add] at hfold
      simp only [jsNumber?, hdata, hL, hparse, hfold]

theorem jsNumberD0_natToDecimal (n : Nat) :
    jsNumberD0 (some (natToDecimal n)) = n := by
  simp [jsNumberD0, jsNumber_natToDecimal]

/-! ### Session store lemmas -/

theorem find?_erase_eq_none (r : RedisState) (key : String) :
    List.find? (fun p => p.1 == key) (eraseSession r key).sessions = none := by
  apply List.find?_eq_none.2
  intro p hp
  have := List.of_mem_filter hp
  simpa [bne_iff_ne] using this

theorem lookupSession_erase (r : RedisState) (key : String) :
    lookupSession (eraseSession r key) key = none := by
  simp [lookupSession, find?_erase_eq_none]

theorem lookupSession_hmset (r : RedisState) (key : String) (h : SessionHash) :
    lookupSession (hmsetSession r key h) key = some h := by
  simp only [lookupSession, hmsetSession]
  rw [List.find?_append, find?_erase_eq_none]
  simp

/-! ### Characterization lemmas for the operations -/

theorem getTotalUsageByUpdated_ok {cfg : Config} {db : DBState} {fs t : Nat}
    (h : getTotalUsageByUpdated cfg db fs = .ok t) :
    t = jsNumberD0 db.total_usage + fs ∧ jsNumberD0 db.total_usage + fs ≤ cfg.totalSize := by
  simp only [getTotalUsageByUpdated] at h
  split at h
  · cases h
  · next hcond => exact ⟨(Except.ok.inj h).symm, by omega⟩

theorem assertConcurrentLimit_ok {cfg : Config} {r : RedisState}
    (h : (scanKeys cfg r).length < cfg.concurrent) :
    assertConcurrentLimit cfg r = .ok () := by
  simp [assertConcurrentLimit, Nat.not_le.2 h]

/-- On a session key that is not live, `getFileInfoByRedis` rejects with
`FileNotFound`. -/
theorem getFileInfoByRedis_absent {r : RedisState} {uuid : String}
    (h : lookupSession r uuid = none) :
    getFileInfoByRedis r uuid = .error .fileNotFound := by
  simp [getFileInfoByRedis, h, jsNumberStrict?]

/-- `finish` on a session key that is not live (never issued, expired, or
already consumed) rejects with `FileNotFound` and leaves the state
unchanged, whatever the collaborators would answer. -/
theorem finish_absent_session (env : Env) (cfg : Config) (nowMs : Nat)
    (u : String) (st : State) (uuid : String)
    (h : lookupSession st.redis uuid = none) :
    finish env cfg nowMs u st ⟨uuid⟩ = (.error .fileNotFound, st) := by
  simp [finish, getFileInfoByRedis_absent h]

/-! ### Claims -/

/-- C9: if `start` rejects for any reason (concurrency limit, capacity, or
directory-validation failure), no upload session is written to the
ephemeral store and no durable record is created or modified — all checks
complete before the session write, so a failed `start` leaves both stores
exactly as they were. -/
theorem c9_failed_start_unchanged (env : Env) (cfg : Config) (nowMs : Nat)
    (st : State) (c : StartConfig) (e : Err) (st' : State)
    (h : start env cfg nowMs st c = (.error e, st')) : st' = st := by
  simp only [start] at h
  split at h
  · exact (congrArg Prod.snd h).symm
  · split at h
    · exact (congrArg Prod.snd h).symm
    · split at h
      · exact (congrArg Prod.snd h).symm
      · split at h
        · exact (congrArg Prod.snd h).symm
        · exact absurd (congrArg Prod.fst h) (by simp)

/-- C2: `start` enforces its preconditions fail-fast in the order
(1) concurrency check — when the pattern scan (capped at
`concurrent + 1` keys) finds at least `concurrent` live sessions, `start`
rejects with `UploadConcurrentLimit` whatever the capacity or directory
situation is; (2) capacity check (the durable-usage projection, then the
in-flight-size sum, both rejecting with `NotEnoughTotalUsage`);
(3) directory check, whose failure propagates unchanged.  The first
violated check determines the error, and the state is left unchanged. -/
theorem c2_start_check_order (env : Env) (cfg : Config) (nowMs : Nat)
    (st : State) (c : StartConfig) :
    ((scanKeys cfg st.redis).length ≥ cfg.concurrent →
      start env cfg nowMs st c = (.error .uploadConcurrentLimit, st))
    ∧ ((scanKeys cfg st.redis).length < cfg.concurrent →
        getTotalUsageByUpdated cfg st.db c.fileSize = .error .notEnoughTotalUsage →
        start env cfg nowMs st c = (.error .notEnoughTotalUsage, st))
    ∧ (∀ t, (scanKeys cfg st.redis).length < cfg.concurrent →
        getTotalUsageByUpdated cfg st.db c.fileSize = .ok t →
        assertConcurrentFileSize cfg st.redis t = .error .notEnoughTotalUsage →
        start env cfg nowMs st c = (.error .notEnoughTotalUsage, st))
    ∧ (∀ t e, (scanKeys cfg st.redis).length < cfg.concurrent →
        getTotalUsageByUpdated cfg st.db c.fileSize = .ok t →
        assertConcurrentFileSize cfg st.redis t = .ok () →
        env.dirAssert c.targetDirectoryPath = .error e →
        start env cfg nowMs st c = (.error e, st)) := by
  refine ⟨?_, ?_, ?_, ?_⟩
  · intro h
    have hcl : assertConcurrentLimit cfg st.redis = .error .uploadConcurrentLimit := by
      simp [assertConcurrentLimit, h]
    simp [start, hcl]
  · intro h1 h2
    simp [start, assertConcurrentLimit_ok h1, h2]
  · intro t h1 h2 h3
    simp [start, assertConcurrentLimit_ok h1, h2, h3]
  · intro t e h1 h2 h3 h4
    simp [start, assertConcurrentLimit_ok h1, h2, h3, h4]

/-- C1: for every call to `start` or `finish` with a session file size
`fileSize > 0`, the capacity check reads the current durable usage
(missing record read as 0) and rejects with `NotEnoughTotalUsage` exactly
when `currentUsage + fileSize > totalSize`; otherwise it passes and
returns the projected total `currentUsage + fileSize`.  When the
projection is over the limit, `start` (once past its concurrency check)
and `finish` (once past session load, directory and object checks) both
reject with `NotEnoughTotalUsage`. -/
theorem c1_capacity_check (env : Env) (cfg : Config) (nowMs : Nat) (u : String)
    (st : State) (db : DBState) (fileSize : Nat) (_hpos : 0 < fileSize) :
    (getTotalUsageByUpdated cfg db fileSize
        = if jsNumberD0 db.total_usage + fileSize > cfg.totalSize
          then .error .notEnoughTotalUsage
          else .ok (jsNumberD0 db.total_usage + fileSize))
    ∧ (∀ c : StartConfig, c.fileSize = fileSize →
        (scanKeys cfg st.redis).length < cfg.concurrent →
        jsNumberD0 st.db.total_usage + fileSize > cfg.totalSize →
        start env cfg nowMs st c = (.error .notEnoughTotalUsage, st))
    ∧ (∀ uuid info, getFileInfoByRedis st.redis uuid = .ok info →
        info.fileSize = fileSize →
        env.dirAssert info.targetDirectoryPath = .ok () →
        env.ossAssert (generateOSSFilePath cfg nowMs info.fileName uuid) = .ok () →
        jsNumberD0 st.db.total_usage + fileSize > cfg.totalSize →
        finish env cfg nowMs u st ⟨uuid⟩ = (.error .notEnoughTotalUsage, st)) := by
  refine ⟨rfl, ?_, ?_⟩
  · intro c hc h1 h2
    have hover : getTotalUsageByUpdated cfg st.db c.fileSize = .error .notEnoughTotalUsage := by
      simp [getTotalUsageByUpdated, hc, h2]
    simp [start, assertConcurrentLimit_ok h1, hover]
  · intro uuid info hinfo hsz hdir hoss hover
    have hov : getTotalUsageByUpdated cfg st.db info.fileSize = .error .notEnoughTotalUsage := by
      simp [getTotalUsageByUpdated, hsz, hover]
    simp [finish, hinfo, hdir, hoss, hov]

/-- C6: `finish` rejects with `FileNotFound` exactly when the session hash
loaded for the key (an absent key reading as four nulls) has a null/empty
file name, directory path or resource type, or a file size that does not
parse to a number; in particular a session key never issued by `start`, or
whose session has expired (absent key), makes `finish` reject with
`FileNotFound` before any other step runs — for every possible
collaborator behaviour, with the state unchanged. -/
theorem c6_file_info_validation (st : State) (uuid : String) :
    (getFileInfoByRedis st.redis uuid = .error .fileNotFound ↔
      (((lookupSession st.redis uuid).getD ⟨none, none, none, none⟩).fileName.getD "" = ""
        ∨ jsNumberStrict?
            ((lookupSession st.redis uuid).getD ⟨none, none, none, none⟩).fileSize = none
        ∨ ((lookupSession st.redis uuid).getD
            ⟨none, none, none, none⟩).targetDirectoryPath.getD "" = ""
        ∨ ((lookupSession st.redis uuid).getD
            ⟨none, none, none, none⟩).fileResourceType.getD "" = ""))
    ∧ (lookupSession st.redis uuid = none →
        ∀ env cfg nowMs u, finish env cfg nowMs u st ⟨uuid⟩ = (.error .fileNotFound, st)) := by
  constructor
  · simp only [getFileInfoByRedis]
    split
    · next hcond => simp [hcond]
    · next hcond => simp [hcond]
  · intro h env cfg nowMs u
    exact finish_absent_session env cfg nowMs u st uuid h

/-- C7: if the object does not exist at the derived path in the object
store, `finish` rejects with the object store's failure propagated
unchanged, and no file record, no user-file link and no usage write is
performed — the whole state is exactly as before. -/
theorem c7_missing_object_no_writes (env : Env) (cfg : Config) (nowMs : Nat)
    (u : String) (st : State) (uuid : String) (info : FileInfo) (e : Err)
    (hinfo : getFileInfoByRedis st.redis uuid = .ok info)
    (hdir : env.dirAssert info.targetDirectoryPath = .ok ())
    (hoss : env.ossAssert (generateOSSFilePath cfg nowMs info.fileName uuid) = .error e) :
    finish env cfg nowMs u st ⟨uuid⟩ = (.error e, st) := by
  simp [finish, hinfo, hdir, hoss]

/-- C3: for every session that `finish` completes successfully, the user's
durable usage afterwards equals the usage read during that `finish` plus
exactly the session's file size; a file record with that id and a
user-file link (user, id) are inserted, the record's payload being the
conversion-state object `{region, convertStep}` when the session's
resource type is in the whiteboard-convertible set and the empty object
otherwise; and the upload session is deleted from the ephemeral store, so
a subsequent `finish` with the same id rejects with `FileNotFound`. -/
theorem c3_finish_success_postconditions (env : Env) (cfg : Config)
    (nowMs : Nat) (u : String) (st st' : State) (uuid : String)
    (h : finish env cfg nowMs u st ⟨uuid⟩ = (.ok (), st')) :
    ∃ info : FileInfo,
      getFileInfoByRedis st.redis uuid = .ok info
      ∧ jsNumberD0 st'.db.total_usage = jsNumberD0 st.db.total_usage + info.fileSize
      ∧ (∃ fr : FileRecord, fr ∈ st'.db.files ∧ fr.file_uuid = uuid
          ∧ fr.payload = (if info.fileResourceType ∈ cfg.whiteboardResourceType
              then FilePayload.whiteboard cfg.convertRegion FileConvertStep.None
              else FilePayload.empty))
      ∧ (⟨u, uuid⟩ : UserFileLink) ∈ st'.db.userFiles
      ∧ lookupSession st'.redis uuid = none
      ∧ (∀ env2 nowMs2, finish env2 cfg nowMs2 u st' ⟨uuid⟩
          = (.error .fileNotFound, st')) := by
  simp only [finish] at h
  split at h
  · simp at h
  · next info hinfo =>
    split at h
    · simp at h
    · split at h
      · simp at h
      · split at h
        · simp at h
        · next totalUsage htot =>
          have hst' : st' = _ := (congrArg Prod.snd h).symm
          obtain ⟨htval, _⟩ := getTotalUsageByUpdated_ok htot
          refine ⟨info, hinfo, ?_, ?_, ?_, ?_, ?_⟩
          · rw [hst']
            simpa [jsNumberD0_natToDecimal] using htval
          · rw [hst']
            refine ⟨⟨info.fileName, info.fileSize,
                env.ossDomain ++ "/" ++ generateOSSFilePath cfg nowMs info.fileName uuid,
                uuid, info.targetDirectoryPath, info.fileResourceType,
                generateFilePayload cfg info.fileResourceType⟩, ?_, rfl, ?_⟩
            · simp
            · simp [generateFilePayload]
          · rw [hst']
            simp
          · rw [hst']
            exact lookupSession_erase st.redis uuid
          · intro env2 nowMs2
            apply finish_absent_session
            rw [hst']
            exact lookupSession_erase st.redis uuid

/-- C5: the generated object-store path has exactly the form
`{configuredPrefix}/{YYYY-MM}/{DD}/{fileId}/{fileId}{originalExtension}`,
where the date components are the UTC date at call time, the file id
appears twice, and the extension is the extension of the input file name.
The path depends on the file name only through its extension: the original
base name does not appear. -/
theorem c5_oss_path_format (cfg : Config) (t : Nat) (f id : String) :
    generateOSSFilePath cfg t f id
      = cfg.prefixPath ++ "/"
          ++ (pad4 (utcDate t).1 ++ "-" ++ pad2 (utcDate t).2.1
              ++ "/" ++ pad2 (utcDate t).2.2)
          ++ "/" ++ id ++ "/" ++ id ++ extname f
    ∧ ∀ g, extname g = extname f →
        generateOSSFilePath cfg t g id = generateOSSFilePath cfg t f id := by
  refine ⟨rfl, ?_⟩
  intro g hg
  simp [generateOSSFilePath, hg]

/-- C4 (code bug): the object path is recomputed by `finish` from the
wall clock at `finish` time, not from the date used at `start`.  A session
started at 1970-01-01T23:59:59.999Z and finished at 1970-01-02T00:00:00Z
derives two different paths, so the object-existence check of `finish`
looks at a path nobody uploaded to and `finish` rejects even though the
object exists at the path issued by `start` — contradicting the spec's
requirement that both derivations produce identical output. -/
theorem c4_path_date_mismatch :
    generateOSSFilePath cfgW 86399999 "a.png" "uuid-1"
        = "cloud-storage/1970-01/01/uuid-1/uuid-1.png"
    ∧ generateOSSFilePath cfgW 86400000 "a.png" "uuid-1"
        = "cloud-storage/1970-01/02/uuid-1/uuid-1.png"
    ∧ generateOSSFilePath cfgW 86399999 "a.png" "uuid-1"
        ≠ generateOSSFilePath cfgW 86400000 "a.png" "uuid-1"
    ∧ (start envW cfgW 86399999 stEmpty ⟨"a.png", 1000, "/docs"⟩).1
        = .ok ⟨"uuid-1", "cloud-storage/1970-01/01/uuid-1/uuid-1.png",
               "https://oss.example.com", "policy", "signature"⟩
    ∧ finish envMidnight cfgW 86400000 "user-1"
          (start envW cfgW 86399999 stEmpty ⟨"a.png", 1000, "/docs"⟩).2 ⟨"uuid-1"⟩
        = (.error (.externalError "oss-object-missing"),
           (start envW cfgW 86399999 stEmpty ⟨"a.png", 1000, "/docs"⟩).2) := by
  decide

/-! ### C8: the in-flight size sum -/

theorem lookupSession_of_mem (l : List (String × SessionHash))
    (hnd : (l.map Prod.fst).Nodup) :
    ∀ p ∈ l, lookupSession ⟨l⟩ p.1 = some p.2 := by
  induction l with
  | nil => intro p hp; simp at hp
  | cons q rest ih =>
    intro p hp
    simp only [List.map_cons, List.nodup_cons] at hnd
    rcases List.mem_cons.1 hp with hp | hp
    · subst hp
      simp [lookupSession]
    · have hne : ¬(q.1 == p.1) = true := by
        simp only [beq_iff_eq]
        intro he
        exact hnd.1 (he ▸ List.mem_map_of_mem Prod.fst hp)
      have hrest := ih hnd.2 p hp
      simp only [lookupSession] at hrest ⊢
      have hne' : ¬((fun x : String × SessionHash => x.1 == p.1) q = true) := hne
      rw [List.find?_cons_of_neg rest hne']
      exact hrest

theorem foldl_scanKeys_eq_specSum (r : RedisState) :
    ∀ (l : List (String × SessionHash)) (base : Nat),
      (∀ p ∈ l, lookupSession r p.1 = some p.2) →
      (l.map Prod.fst).foldl (fun acc k => acc + sessionSize r k) base
        = l.foldl (fun acc p => acc + jsNumberD0 p.2.fileSize) base := by
  intro l
  induction l with
  | nil => intro base _; rfl
  | cons q rest ih =>
    intro base hl
    simp only [List.map_cons, List.foldl_cons]
    rw [show sessionSize r q.1 = jsNumberD0 q.2.fileSize from by
      simp [sessionSize, hl q (List.mem_cons_self _ _)]]
    exact ih _ (fun p hp => hl p (List.mem_cons_of_mem _ hp))

/-- C8 counterexample: with `concurrent = 1` (scan cap 2) and three live
sessions of 50 bytes each against a 100-byte quota, the sum over every
live session is 150 > 100, so the claim as stated demands a
`NotEnoughTotalUsage` rejection — but `assertConcurrentFileSize` sums only
the first `concurrent + 1 = 2` scanned sessions (100 ≤ 100) and passes. -/
theorem c8_counterexample_scan_cap :
    assertConcurrentFileSize cfgC8 redisC8 0 = .ok ()
    ∧ specLiveSessionSum redisC8 0 > cfgC8.totalSize := by
  decide

/-- C8 (amended): `assertConcurrentFileSize(baseTotal)` computes
`baseTotal` plus the sum of the declared file size of each live session
returned by the pattern scan capped at `concurrent + 1` keys (an
unreadable or non-numeric size contributing 0) and rejects with
`NotEnoughTotalUsage` exactly when that sum strictly exceeds `totalSize`,
mutating nothing; whenever the user has at most `concurrent + 1` live
sessions — always the case where `start` calls it, right after
`assertConcurrentLimit` — the scanned sum equals the sum over every
currently live session of the user. -/
theorem c8_concurrent_size_check (cfg : Config) (r : RedisState) (base : Nat) :
    (assertConcurrentFileSize cfg r base
        = if (scanKeys cfg r).foldl (fun acc k => acc + sessionSize r k) base
              > cfg.totalSize
          then .error .notEnoughTotalUsage
          else .ok ())
    ∧ ((r.sessions.map Prod.fst).Nodup → r.sessions.length ≤ cfg.concurrent + 1 →
        (scanKeys cfg r).foldl (fun acc k => acc + sessionSize r k) base
          = specLiveSessionSum r base) := by
  refine ⟨rfl, ?_⟩
  intro hnd hlen
  have hscan : scanKeys cfg r = r.sessions.map Prod.fst := by
    simp only [scanKeys]
    exact List.take_of_length_le (by simpa using hlen)
  rw [hscan]
  exact foldl_scanKeys_eq_specSum r r.sessions base (lookupSession_of_mem r.sessions hnd)

/-- C10 counterexample: `start` accepts an empty file name, writing a
session with `fileName = ""` and `fileSize = 1000 > 0`; the subsequent
load by `getFileInfoByRedis` then rejects with `FileNotFound` instead of
returning the four stored values. -/
theorem c10_counterexample_empty_name :
    (start envW cfgW 0 stEmpty ⟨"", 1000, "/docs"⟩).1
        = .ok ⟨"uuid-1", "cloud-storage/1970-01/01/uuid-1/uuid-1",
               "https://oss.example.com", "policy", "signature"⟩
    ∧ lookupSession (start envW cfgW 0 stEmpty ⟨"", 1000, "/docs"⟩).2.redis "uuid-1"
        = some ⟨some "", some "1000", some "/docs", some "NormalResources"⟩
    ∧ getFileInfoByRedis (start envW cfgW 0 stEmpty ⟨"", 1000, "/docs"⟩).2.redis "uuid-1"
        = .error .fileNotFound := by
  decide

/-- C10 (amended): for every session written by a successful `start` with
an integer `fileSize > 0`, a non-empty file name and directory path, and a
non-empty classified resource type, the file size is stored in the
ephemeral store as its decimal string and the store-then-load round trip
`getFileInfoByRedis` returns exactly the file name, file size, directory
path and resource type that `start` wrote (the size parsed back to the
identical number). -/
theorem c10_session_roundtrip (env : Env) (cfg : Config) (nowMs : Nat)
    (st : State) (c : StartConfig) (r : StartReturn) (st' : State)
    (_hpos : 0 < c.fileSize)
    (hname : c.fileName ≠ "")
    (hdir : c.targetDirectoryPath ≠ "")
    (hcls : env.classify c.fileName ≠ "")
    (hstart : start env cfg nowMs st c = (.ok r, st')) :
    lookupSession st'.redis r.fileUUID
        = some ⟨some c.fileName, some (natToDecimal c.fileSize),
                some c.targetDirectoryPath, some (env.classify c.fileName)⟩
    ∧ getFileInfoByRedis st'.redis r.fileUUID
        = .ok ⟨c.fileName, c.fileSize, c.targetDirectoryPath,
               env.classify c.fileName⟩ := by
  simp only [start] at hstart
  split at hstart
  · simp at hstart
  · split at hstart
    · simp at hstart
    · split at hstart
      · simp at hstart
      · split at hstart
        · simp at hstart
        · rw [Prod.mk.injEq] at hstart
          obtain ⟨h1, h2⟩ := hstart
          have hr := Except.ok.inj h1
          subst h2
          rw [← hr]
          refine ⟨lookupSession_hmset st.redis env.newUUID _, ?_⟩
          simp [getFileInfoByRedis, lookupSession_hmset, jsNumberStrict?,
            jsNumber_natToDecimal, hname, hdir, hcls]

/-! ### Witnesses -/

/-- Witness for C1: with durable usage 9500 and a 1000-byte file against
the 10000-byte quota, both `start` and `finish` reject with
`NotEnoughTotalUsage`. -/
theorem c1_witness :
    start envW cfgW 0 stOver ⟨"a.png", 1000, "/docs"⟩
        = (.error .notEnoughTotalUsage, stOver)
    ∧ finish envW cfgW 0 "user-1" stOver ⟨"f1"⟩
        = (.error .notEnoughTotalUsage, stOver) := by
  have h := c1_capacity_check envW cfgW 0 "user-1" stOver stOver.db 1000 (by decide)
  exact ⟨h.2.1 ⟨"a.png", 1000, "/docs"⟩ rfl (by decide) (by decide),
    h.2.2 "f1" ⟨"a.png", 1000, "/docs", "NormalResources"⟩ (by decide) rfl rfl rfl
      (by decide)⟩

/-- Witness for C2: with five live sessions the concurrency check fires
first; with all earlier checks passing, a directory failure propagates
unchanged. -/
theorem c2_witness :
    start envW cfgW 0 stFull ⟨"a.png", 1000, "/docs"⟩
        = (.error .uploadConcurrentLimit, stFull)
    ∧ start envDirFail cfgW 0 stEmpty ⟨"a.png", 1000, "/docs"⟩
        = (.error (.externalError "directory-not-found"), stEmpty) :=
  ⟨(c2_start_check_order envW cfgW 0 stFull ⟨"a.png", 1000, "/docs"⟩).1 (by decide),
   (c2_start_check_order envDirFail cfgW 0 stEmpty ⟨"a.png", 1000, "/docs"⟩).2.2.2
     1000 (.externalError "directory-not-found") (by decide) (by decide) (by decide)
     rfl⟩

/-- Witness for C3: finishing the 1000-byte session of `stSession` yields
usage 1000, the inserted record and link, and the consumed session. -/
theorem c3_witness :
    ∃ info : FileInfo,
      getFileInfoByRedis stSession.redis "f1" = .ok info
      ∧ jsNumberD0 stFinished.db.total_usage
          = jsNumberD0 stSession.db.total_usage + info.fileSize
      ∧ (∃ fr : FileRecord, fr ∈ stFinished.db.files ∧ fr.file_uuid = "f1"
          ∧ fr.payload = (if info.fileResourceType ∈ cfgW.whiteboardResourceType
              then FilePayload.whiteboard cfgW.convertRegion FileConvertStep.None
              else FilePayload.empty))
      ∧ (⟨"user-1", "f1"⟩ : UserFileLink) ∈ stFinished.db.userFiles
      ∧ lookupSession stFinished.redis "f1" = none
      ∧ (∀ env2 nowMs2, finish env2 cfgW nowMs2 "user-1" stFinished ⟨"f1"⟩
          = (.error .fileNotFound, stFinished)) :=
  c3_finish_success_postconditions envW cfgW 0 "user-1" stSession stFinished "f1"
    (by decide)

/-- Witness for C5: the 2021-10-19 path from the source's own example
comment, and independence of the path from the base name. -/
theorem c5_witness :
    generateOSSFilePath cfgW 1634601600000 "a.png" "uuid-1"
        = "cloud-storage/2021-10/19/uuid-1/uuid-1.png"
    ∧ generateOSSFilePath cfgW 1634601600000 "some-other-name.png" "uuid-1"
        = generateOSSFilePath cfgW 1634601600000 "a.png" "uuid-1" :=
  ⟨by decide,
   (c5_oss_path_format cfgW 1634601600000 "a.png" "uuid-1").2 "some-other-name.png"
     (by decide)⟩

/-- Witness for C6: a key never issued (empty store) reads as four nulls,
is rejected as `FileNotFound`, and `finish` rejects it first, leaving the
state unchanged. -/
theorem c6_witness :
    getFileInfoByRedis stEmpty.redis "ghost" = .error .fileNotFound
    ∧ finish envW cfgW 0 "user-1" stEmpty ⟨"ghost"⟩
        = (.error .fileNotFound, stEmpty) :=
  ⟨(c6_file_info_validation stEmpty "ghost").1.2 (by decide),
   (c6_file_info_validation stEmpty "ghost").2 rfl envW cfgW 0 "user-1"⟩

/-- Witness for C7: with the object store reporting the object missing,
`finish` propagates that failure and leaves the state unchanged. -/
theorem c7_witness :
    finish envOssFail cfgW 0 "user-1" stSession ⟨"f1"⟩
      = (.error (.externalError "oss-object-missing"), stSession) :=
  c7_missing_object_no_writes envOssFail cfgW 0 "user-1" stSession "f1"
    ⟨"a.png", 1000, "/docs", "NormalResources"⟩ (.externalError "oss-object-missing")
    (by decide) rfl rfl

/-- Witness for C8 (amended): with three distinct-keyed sessions under the
cap `cfgW.concurrent + 1 = 6`, the scanned sum equals the sum over every
live session. -/
theorem c8_witness :
    assertConcurrentFileSize cfgW redisC8 0
        = (if (scanKeys cfgW redisC8).foldl (fun acc k => acc + sessionSize redisC8 k) 0
              > cfgW.totalSize
           then .error .notEnoughTotalUsage
           else .ok ())
    ∧ (scanKeys cfgW redisC8).foldl (fun acc k => acc + sessionSize redisC8 k) 0
        = specLiveSessionSum redisC8 0 :=
  ⟨(c8_concurrent_size_check cfgW redisC8 0).1,
   (c8_concurrent_size_check cfgW redisC8 0).2 (by decide) (by decide)⟩

/-- Witness for C9: the `start` rejected by the concurrency limit leaves
the state exactly as it was. -/
theorem c9_witness :
    (start envW cfgW 0 stFull ⟨"a.png", 1000, "/docs"⟩).2 = stFull :=
  c9_failed_start_unchanged envW cfgW 0 stFull ⟨"a.png", 1000, "/docs"⟩
    .uploadConcurrentLimit (start envW cfgW 0 stFull ⟨"a.png", 1000, "/docs"⟩).2
    (by decide)

/-- Witness for C10 (amended): a successful 1000-byte `start` stores the
size as `"1000"` and the round trip returns exactly the written values. -/
theorem c10_witness :
    lookupSession (start envW cfgW 0 stEmpty ⟨"a.png", 1000, "/docs"⟩).2.redis "uuid-1"
        = some ⟨some "a.png", some (natToDecimal 1000), some "/docs",
                some "NormalResources"⟩
    ∧ getFileInfoByRedis
          (start envW cfgW 0 stEmpty ⟨"a.png", 1000, "/docs"⟩).2.redis "uuid-1"
        = .ok ⟨"a.png", 1000, "/docs", "NormalResources"⟩ :=
  c10_session_roundtrip envW cfgW 0 stEmpty ⟨"a.png", 1000, "/docs"⟩
    ⟨"uuid-1", "cloud-storage/1970-01/01/uuid-1/uuid-1.png",
     "https://oss.example.com", "policy", "signature"⟩
    (start envW cfgW 0 stEmpty ⟨"a.png", 1000, "/docs"⟩).2
    (by decide) (by decide) (by decide) (by decide) (by decide)

end FlatServer
